import Mathlib

/-!
Shallow embedding of package nftns (nft/nftns/nftns.go): namespace-scoped
nftables configuration read/apply over an external nsenter/nft process
boundary.

Modelling choices:
* Byte buffers are modelled as `String`.
* The external world (PATH lookups, process behaviour, and the JSON
  encode/decode collaborator from nftconfig, whose source is not part of
  this package) is an oracle structure `Env` that the embedded functions
  are parametric over.
* The process-wide package variables NSEnterBinPath and NFTBinPath are an
  explicit state value `ToolPaths` threaded through the calls.
* Side effects that the claims talk about (PATH lookups performed, external
  processes spawned) are recorded in an `Event` trace returned alongside
  each result, so that "no process is spawned" is the absence of a
  `spawned` event in the trace.
* Go's nil slice versus initialized empty slice is `Option (List Nftable)`:
  `none` is the nil (unset) slice, `some []` the initialized empty one.
-/

/-- Ruleset entity record (schema.Nftable). Modelled from the spec: the
entity records are owned by the external schema collaborator and are opaque
to this core, so only an abstract payload is carried. -/
structure Nftable where
  raw : String
deriving DecidableEq

/-- Process-wide resolved tool paths: the package variables NSEnterBinPath
and NFTBinPath, set at process start by a best-effort lookup (so either may
be the empty string when startup resolution failed). -/
structure ToolPaths where
  NSEnterBinPath : String
  NFTBinPath : String
deriving DecidableEq

/-- Configuration document (type Config): the embedded entity sequence plus
the bound namespace path. NetNSPath carries the json tag that excludes it
from serialization; `Nftables = none` models the Go nil slice before
initialization, `some l` an initialized slice. -/
structure Config where
  Nftables : Option (List Nftable)
  NetNSPath : String
deriving DecidableEq

/-- Outcome of running one external command: `runErr = none` exactly when
cmd.Run returned nil (zero exit status); stdout and stderr are the captured
buffers. -/
structure ProcOutcome where
  runErr : Option String
  stdout : String
  stderr : String
deriving DecidableEq

/-- OS-level process invocation: resolved executable path, the full argv
(argv0 included, as in exec.Cmd.Args), and the optionally attached stdin
payload — `none` means no standard-input stream is attached at all. -/
structure Invocation where
  path : String
  argv : List String
  stdin : Option String
deriving DecidableEq

/-- Observable side effects of a call: a PATH lookup (exec.LookPath) or an
external process being spawned. -/
inductive Event where
  | lookup (name : String)
  | spawned (inv : Invocation)
deriving DecidableEq

/-- Environment oracle for everything outside this package.

* `lookPath` models exec.LookPath: the resolved path, or the lookup error.
* `spawn` models the behaviour of an actually started external process.
* `toJSON` and `fromJSON` are modelled from the spec: the JSON-capable
  configuration collaborator (nftconfig.Config, not part of this package)
  offers ToJSON/FromJSON over its own fields only, so the encoder's input
  is exactly the entity sequence — the namespace reference is excluded from
  the serialized form by construction. `fromJSON` returns the decoded
  entity sequence that a successful FromJSON call stores. -/
structure Env where
  lookPath : String → Except String String
  spawn : Invocation → ProcOutcome
  toJSON : Option (List Nftable) → Except String String
  fromJSON : String → Except String (List Nftable)

/-- Model of exec.Cmd as built by exec.Command: argv0 `name` as given,
resolved `path`, the variadic `args` (Args with argv0 stripped), and a
deferred construction error. -/
structure Cmd where
  name : String
  path : String
  args : List String
  err : Option String
deriving DecidableEq

/-- Model of exec.Command: a bare name (nonempty, no path separator) is
resolved via LookPath — on lookup failure the error is deferred into
`Cmd.err` and Path stays the name; a name with a separator (or the empty
string) is used as the Path directly, with no lookup performed. -/
def goCommand (env : Env) (name : String) (args : List String) :
    Cmd × List Event :=
  if name.isEmpty || name.data.contains '/' then
    ({ name := name, path := name, args := args, err := none }, [])
  else
    match env.lookPath name with
    | .ok lp => ({ name := name, path := lp, args := args, err := none },
                 [.lookup name])
    | .error e => ({ name := name, path := name, args := args,
                     err := some e }, [.lookup name])

/-- Model of exec.Cmd.Run with stdout/stderr captured into fresh buffers: a
deferred construction error or an empty Path fails before any process
exists (the buffers stay empty and nothing is spawned); otherwise one
process is spawned and its outcome observed. -/
def cmdRun (env : Env) (cmd : Cmd) (stdin : Option String) :
    ProcOutcome × List Event :=
  match cmd.err with
  | some e => (⟨some e, "", ""⟩, [])
  | none =>
    if cmd.path.isEmpty then
      (⟨some "fork/exec : no such file or directory", "", ""⟩, [])
    else
      (env.spawn ⟨cmd.path, cmd.name :: cmd.args, stdin⟩,
       [.spawned ⟨cmd.path, cmd.name :: cmd.args, stdin⟩])

/-- Constant cmdFile of the source. -/
def cmdFile : String := "-f"

/-- Constant cmdJSON of the source. -/
def cmdJSON : String := "-j"

/-- Constant cmdList of the source. -/
def cmdList : String := "list"

/-- Constant cmdRuleset of the source. -/
def cmdRuleset : String := "ruleset"

/-- Constant cmdStdin of the source. -/
def cmdStdin : String := "-"

/-- Argument vector built by execCommand: the namespace-binding option,
the separator, the ruleset-tool path, then the supplied args. -/
def fullArgs (st : ToolPaths) (netNSPath : String) (args : List String) :
    List String :=
  ("--net=" ++ netNSPath) :: "--" :: st.NFTBinPath :: args

/-- Error message built by execCommand on failure (the fmt.Errorf format
string "failed to execute %s %s: %w stdin:'%s' stdout:'%s' stderr:'%s'"),
embedding the resolved path, the full argument vector, the process error,
the sent input (the empty string when the input was nil), and the captured
stdout and stderr. -/
def execErrorMsg (path : String) (argv : List String) (e : String)
    (input : Option String) (stdout stderr : String) : String :=
  "failed to execute " ++ path ++ " " ++ String.intercalate " " argv ++
    ": " ++ e ++ " stdin:'" ++ input.getD "" ++ "' stdout:'" ++ stdout ++
    "' stderr:'" ++ stderr ++ "'"

/-- Embedding of execCommand: builds the full argument vector via
`fullArgs`, constructs the command on NSEnterBinPath, attaches stdin only
when input is present, runs it, and returns the captured stdout buffer on
success or the forensic error message on failure. The trace records the
lookup exec.Command may perform and the spawned process. (The trace-level
log line is observability only and is not modelled.) -/
def execCommand (env : Env) (st : ToolPaths) (netNSPath : String)
    (input : Option String) (args : List String) :
    Except String String × List Event :=
  let ce := goCommand env st.NSEnterBinPath (fullArgs st netNSPath args)
  let oe := cmdRun env ce.1 input
  match oe.1.runErr with
  | some e =>
      (.error (execErrorMsg ce.1.path (ce.1.name :: ce.1.args) e input
        oe.1.stdout oe.1.stderr), ce.2 ++ oe.2)
  | none => (.ok oe.1.stdout, ce.2 ++ oe.2)

/-- Embedding of New: binds the namespace path; when the process-wide
NSEnterBinPath is empty, attempts a fresh lookup of "nsenter", failing the
call with the lookup error (and leaving the state unchanged) on failure and
updating the process-wide path on success; finally initializes the entity
sequence to an empty (non-nil) slice. -/
def New (env : Env) (st : ToolPaths) (netNSPath : String) :
    Except String Config × ToolPaths × List Event :=
  if st.NSEnterBinPath.isEmpty then
    match env.lookPath "nsenter" with
    | .error e => (.error e, st, [.lookup "nsenter"])
    | .ok p =>
        (.ok { Nftables := some [], NetNSPath := netNSPath },
         { st with NSEnterBinPath := p }, [.lookup "nsenter"])
  else
    (.ok { Nftables := some [], NetNSPath := netNSPath }, st, [])

/-- Embedding of ReadConfig: runs the executor with {-j, list, ruleset} and
a nil input, then builds a fresh document via New and decodes the captured
stdout into its entity sequence; a decode failure is wrapped as
"failed to list ruleset: <err>". -/
def ReadConfig (env : Env) (st : ToolPaths) (netNSPath : String) :
    Except String Config × ToolPaths × List Event :=
  let r := execCommand env st netNSPath none [cmdJSON, cmdList, cmdRuleset]
  match r.1 with
  | .error e => (.error e, st, r.2)
  | .ok stdout =>
    let n := New env st netNSPath
    match n.1 with
    | .error e => (.error e, n.2.1, r.2 ++ n.2.2)
    | .ok config =>
      match env.fromJSON stdout with
      | .error e =>
          (.error ("failed to list ruleset: " ++ e), n.2.1, r.2 ++ n.2.2)
      | .ok nfts =>
          (.ok { config with Nftables := some nfts }, n.2.1, r.2 ++ n.2.2)

/-- Embedding of ApplyConfig: encodes the document's entity sequence (the
namespace path is excluded from serialization by the encoder's type),
returning the encode error before any process runs on failure; otherwise
runs the executor with {-j, -f, -} and the encoded bytes as the stdin
payload. The Config in the result is the document as the call leaves it:
the source assigns to none of its fields, so it is returned unchanged. -/
def ApplyConfig (env : Env) (st : ToolPaths) (c : Config) :
    Except String Unit × Config × List Event :=
  match env.toJSON c.Nftables with
  | .error e => (.error e, c, [])
  | .ok data =>
    let r := execCommand env st c.NetNSPath (some data)
        [cmdJSON, cmdFile, cmdStdin]
    match r.1 with
    | .error e => (.error e, c, r.2)
    | .ok _ => (.ok (), c, r.2)

/-- Substring containment, by explicit decomposition. -/
def containsStr (s sub : String) : Prop := ∃ a b, s = a ++ sub ++ b

/-- Shape of an executor failure message. -/
def isExecutionError (s : String) : Prop :=
  ∃ rest, s = "failed to execute " ++ rest

/-- Helper: goCommand preserves the given name as argv0. -/
theorem goCommand_fst_name (env : Env) (name : String) (args : List String) :
    ((goCommand env name args).1).name = name := by
  unfold goCommand
  split
  · rfl
  · split <;> rfl

/-- Helper: goCommand preserves the given variadic args. -/
theorem goCommand_fst_args (env : Env) (name : String) (args : List String) :
    ((goCommand env name args).1).args = args := by
  unfold goCommand
  split
  · rfl
  · split <;> rfl

/-- Helper: goCommand performs lookups only, it spawns nothing. -/
theorem goCommand_no_spawn (env : Env) (name : String) (args : List String)
    (inv : Invocation) : Event.spawned inv ∉ (goCommand env name args).2 := by
  unfold goCommand
  split
  · simp
  · split <;> simp

/-- Helper: any process cmdRun spawns is exactly the command it was given,
with the given stdin. -/
theorem cmdRun_spawn_mem (env : Env) (cmd : Cmd) (stdin : Option String)
    (inv : Invocation)
    (h : Event.spawned inv ∈ (cmdRun env cmd stdin).2) :
    inv = ⟨cmd.path, cmd.name :: cmd.args, stdin⟩ := by
  unfold cmdRun at h
  cases hc : cmd.err with
  | some e => rw [hc] at h; simp at h
  | none =>
    rw [hc] at h
    by_cases hp : cmd.path.isEmpty <;> simp [hp] at h
    exact h

/-- Helper: cmdRun performs no lookups. -/
theorem cmdRun_no_lookup (env : Env) (cmd : Cmd) (stdin : Option String)
    (name : String) : Event.lookup name ∉ (cmdRun env cmd stdin).2 := by
  unfold cmdRun
  cases hc : cmd.err with
  | some e => simp
  | none => by_cases hp : cmd.path.isEmpty <;> simp [hp]

/-- Helper: the trace of execCommand is the goCommand trace followed by the
cmdRun trace. -/
theorem execCommand_trace (env : Env) (st : ToolPaths) (ns : String)
    (input : Option String) (args : List String) :
    (execCommand env st ns input args).2 =
      (goCommand env st.NSEnterBinPath (fullArgs st ns args)).2 ++
      (cmdRun env (goCommand env st.NSEnterBinPath (fullArgs st ns args)).1
        input).2 := by
  unfold execCommand
  dsimp only
  split <;> rfl

/-- Helper: any process spawned during execCommand carries argv0 equal to
NSEnterBinPath, then the built full argument vector, and the given stdin. -/
theorem execCommand_spawn_mem (env : Env) (st : ToolPaths) (ns : String)
    (input : Option String) (args : List String) (inv : Invocation)
    (h : Event.spawned inv ∈ (execCommand env st ns input args).2) :
    inv.argv = st.NSEnterBinPath :: fullArgs st ns args ∧
      inv.stdin = input := by
  rw [execCommand_trace] at h
  rcases List.mem_append.1 h with h' | h'
  · exact absurd h' (goCommand_no_spawn env _ _ inv)
  · have := cmdRun_spawn_mem env _ input inv h'
    subst this
    simp [goCommand_fst_name, goCommand_fst_args]

/-- Helper: when the stored namespace-entry name is already a path (it
contains a separator), exec.Command uses it as the resolved Path as is. -/
theorem goCommand_path_of_sep (env : Env) (name : String)
    (args : List String) (h : name.data.contains '/' = true) :
    ((goCommand env name args).1).path = name := by
  unfold goCommand
  rw [if_pos (by simp only [h, Bool.or_true])]

/-- Sample resolved tool paths for concrete witnesses. -/
def stR : ToolPaths := ⟨"/usr/bin/nsenter", "/usr/sbin/nft"⟩

/-- Sample environment: lookups resolve under /usr/bin, every spawn
succeeds with stdout "[]", encoding joins the raw entity payloads,
decoding yields one fixed entity. -/
def envOk : Env :=
  { lookPath := fun n => .ok ("/usr/bin/" ++ n)
    spawn := fun _ => ⟨none, "[]", ""⟩
    toJSON := fun o => match o with
      | some l => .ok (String.intercalate "," (l.map Nftable.raw))
      | none => .error "nil entity sequence"
    fromJSON := fun _ => .ok [⟨"tbl"⟩] }

/-- Sample invocation: the one envOk-based reads spawn. -/
def invR : Invocation :=
  ⟨"/usr/bin/nsenter",
   ["/usr/bin/nsenter", "--net=/run/netns/ns0", "--", "/usr/sbin/nft",
    "-j"], none⟩

/-- C1: every process the executor spawns runs the namespace-entry tool
(the stored path is used as the executable when it is a path) with the
argument vector --net=<N>, --, <ruleset-tool path>, then the supplied
arguments A, in that exact order: the namespace-binding option comes before
the separator and the separator appears immediately before the ruleset-tool
path; the OS argv carries argv0 first and then exactly this vector, and the
attached stdin is the given payload. -/
theorem exec_spawns_nsenter_net_sep_nft_args (env : Env) (st : ToolPaths)
    (ns : String) (input : Option String) (args : List String)
    (inv : Invocation)
    (h : Event.spawned inv ∈ (execCommand env st ns input args).2) :
    inv.argv = st.NSEnterBinPath :: ("--net=" ++ ns) :: "--" ::
        st.NFTBinPath :: args ∧
      inv.stdin = input ∧
      (st.NSEnterBinPath.data.contains '/' = true →
        inv.path = st.NSEnterBinPath) := by
  have hmem := h
  rw [execCommand_trace] at hmem
  rcases List.mem_append.1 hmem with h' | h'
  · exact absurd h' (goCommand_no_spawn env _ _ inv)
  · have hinv := cmdRun_spawn_mem env _ input inv h'
    subst hinv
    refine ⟨?_, rfl, ?_⟩
    · simp [goCommand_fst_name, goCommand_fst_args, fullArgs]
    · intro hsep
      simp [goCommand_path_of_sep env _ _ hsep]

/-- Witness for C1: a concrete spawn of the executor, checked end to end. -/
theorem exec_spawns_nsenter_net_sep_nft_args_witness :
    (Event.spawned invR ∈
        (execCommand envOk stR "/run/netns/ns0" none ["-j"]).2) ∧
      (invR.argv = stR.NSEnterBinPath :: ("--net=" ++ "/run/netns/ns0") ::
          "--" :: stR.NFTBinPath :: ["-j"] ∧
        invR.stdin = none ∧
        (stR.NSEnterBinPath.data.contains '/' = true →
          invR.path = stR.NSEnterBinPath)) :=
  ⟨by decide,
   exec_spawns_nsenter_net_sep_nft_args envOk stR "/run/netns/ns0" none
     ["-j"] invR (by decide)⟩

/-- Helper: New spawns no process, whatever its outcome. -/
theorem New_no_spawn (env : Env) (st : ToolPaths) (ns : String)
    (inv : Invocation) : Event.spawned inv ∉ (New env st ns).2.2 := by
  unfold New
  split
  · split <;> simp
  · simp

/-- Helper: every spawn of ReadConfig happens inside its single executor
call, which is made with {-j, list, ruleset} and a nil input. -/
theorem ReadConfig_spawn_sub (env : Env) (st : ToolPaths) (ns : String)
    (inv : Invocation)
    (h : Event.spawned inv ∈ (ReadConfig env st ns).2.2) :
    Event.spawned inv ∈
      (execCommand env st ns none [cmdJSON, cmdList, cmdRuleset]).2 := by
  unfold ReadConfig at h
  dsimp only at h
  split at h
  · exact h
  · split at h
    · rcases List.mem_append.1 h with h' | h'
      · exact h'
      · exact absurd h' (New_no_spawn env st ns inv)
    · split at h
      · rcases List.mem_append.1 h with h' | h'
        · exact h'
        · exact absurd h' (New_no_spawn env st ns inv)
      · rcases List.mem_append.1 h with h' | h'
        · exact h'
        · exact absurd h' (New_no_spawn env st ns inv)

/-- Helper: every spawn of ApplyConfig happens inside its single executor
call, made after a successful encode with {-j, -f, -} and the encoded bytes
as input. -/
theorem ApplyConfig_spawn_sub (env : Env) (st : ToolPaths) (c : Config)
    (inv : Invocation)
    (h : Event.spawned inv ∈ (ApplyConfig env st c).2.2) :
    ∃ data, env.toJSON c.Nftables = .ok data ∧
      Event.spawned inv ∈
        (execCommand env st c.NetNSPath (some data)
          [cmdJSON, cmdFile, cmdStdin]).2 := by
  unfold ApplyConfig at h
  cases hd : env.toJSON c.Nftables with
  | error e => rw [hd] at h; simp at h
  | ok data =>
    rw [hd] at h
    dsimp only at h
    refine ⟨data, rfl, ?_⟩
    split at h
    · exact h
    · exact h

/-- C2: every process spawned by Read carries exactly the argument sequence
-j list ruleset after the executor prefix and has no standard-input stream
attached (stdin is none, not an empty payload); every process spawned by
Apply carries exactly -j -f - and the document's encoded JSON bytes as the
attached standard-input payload. -/
theorem read_apply_args_and_stdin (env : Env) (st : ToolPaths) (ns : String)
    (c : Config) (inv inv' : Invocation) :
    (Event.spawned inv ∈ (ReadConfig env st ns).2.2 →
      inv.argv = st.NSEnterBinPath :: ("--net=" ++ ns) :: "--" ::
        st.NFTBinPath :: ["-j", "list", "ruleset"] ∧ inv.stdin = none) ∧
    (Event.spawned inv' ∈ (ApplyConfig env st c).2.2 →
      ∃ data, env.toJSON c.Nftables = .ok data ∧
        inv'.argv = st.NSEnterBinPath :: ("--net=" ++ c.NetNSPath) :: "--" ::
          st.NFTBinPath :: ["-j", "-f", "-"] ∧
        inv'.stdin = some data) := by
  constructor
  · intro h
    have h' := ReadConfig_spawn_sub env st ns inv h
    have := execCommand_spawn_mem env st ns none _ inv h'
    simpa [fullArgs, cmdJSON, cmdList, cmdRuleset] using this
  · intro h
    rcases ApplyConfig_spawn_sub env st c inv' h with ⟨data, hd, h'⟩
    have := execCommand_spawn_mem env st c.NetNSPath (some data) _ inv' h'
    exact ⟨data, hd, by simpa [fullArgs, cmdJSON, cmdFile, cmdStdin] using this⟩

/-- Sample document bound to a second namespace, used in witnesses. -/
def cfgR : Config := ⟨some [⟨"t1"⟩], "/run/netns/ns1"⟩

/-- Sample invocation: the one envOk-based Read spawns. -/
def invRead : Invocation :=
  ⟨"/usr/bin/nsenter",
   ["/usr/bin/nsenter", "--net=/run/netns/ns0", "--", "/usr/sbin/nft",
    "-j", "list", "ruleset"], none⟩

/-- Sample invocation: the one envOk-based Apply of cfgR spawns. -/
def invApply : Invocation :=
  ⟨"/usr/bin/nsenter",
   ["/usr/bin/nsenter", "--net=/run/netns/ns1", "--", "/usr/sbin/nft",
    "-j", "-f", "-"], some "t1"⟩

/-- Witness for C2: a concrete Read spawn and a concrete Apply spawn. -/
theorem read_apply_args_and_stdin_witness :
    (Event.spawned invRead ∈ (ReadConfig envOk stR "/run/netns/ns0").2.2) ∧
    (Event.spawned invApply ∈ (ApplyConfig envOk stR cfgR).2.2) ∧
    (invRead.argv = stR.NSEnterBinPath :: ("--net=" ++ "/run/netns/ns0") ::
        "--" :: stR.NFTBinPath :: ["-j", "list", "ruleset"] ∧
      invRead.stdin = none) ∧
    (∃ data, envOk.toJSON cfgR.Nftables = .ok data ∧
      invApply.argv = stR.NSEnterBinPath :: ("--net=" ++ "/run/netns/ns1") ::
        "--" :: stR.NFTBinPath :: ["-j", "-f", "-"] ∧
      invApply.stdin = some data) :=
  ⟨by decide, by decide,
   (read_apply_args_and_stdin envOk stR "/run/netns/ns0" cfgR invRead
     invApply).1 (by decide),
   (read_apply_args_and_stdin envOk stR "/run/netns/ns0" cfgR invRead
     invApply).2 (by decide)⟩

/-- Command built by execCommand before running it. -/
def builtCmd (env : Env) (st : ToolPaths) (ns : String)
    (args : List String) : Cmd :=
  (goCommand env st.NSEnterBinPath (fullArgs st ns args)).1

/-- Outcome of execCommand's run of the built command. -/
def runOutcome (env : Env) (st : ToolPaths) (ns : String)
    (input : Option String) (args : List String) : ProcOutcome :=
  (cmdRun env (builtCmd env st ns args) input).1

/-- Message of the error execCommand returns when the run fails with e. -/
def execFailMsg (env : Env) (st : ToolPaths) (ns : String)
    (input : Option String) (args : List String) (e : String) : String :=
  execErrorMsg (builtCmd env st ns args).path
    ((builtCmd env st ns args).name :: (builtCmd env st ns args).args) e
    input (runOutcome env st ns input args).stdout
    (runOutcome env st ns input args).stderr

/-- Helper: execCommand's result as a function of the run outcome. -/
theorem execCommand_fst_eq (env : Env) (st : ToolPaths) (ns : String)
    (input : Option String) (args : List String) :
    (execCommand env st ns input args).1 =
      match (runOutcome env st ns input args).runErr with
      | none => .ok (runOutcome env st ns input args).stdout
      | some e => .error (execFailMsg env st ns input args e) := by
  unfold execCommand execFailMsg runOutcome builtCmd
  dsimp only
  cases (cmdRun env (goCommand env st.NSEnterBinPath (fullArgs st ns args)).1
    input).1.runErr <;> rfl

/-- Helper: substring containment from an explicit decomposition. -/
theorem containsStr_intro (a sub b : String) :
    containsStr (a ++ sub ++ b) sub := ⟨a, b, rfl⟩

/-- Helper: every forensic piece — the resolved path, the space-joined
argument vector, the process error, the sent input, the captured stdout
and the captured stderr — appears verbatim in execErrorMsg. -/
theorem execErrorMsg_contains (path : String) (argv : List String)
    (e : String) (input : Option String) (o r : String) :
    containsStr (execErrorMsg path argv e input o r) path ∧
    containsStr (execErrorMsg path argv e input o r)
      (String.intercalate " " argv) ∧
    containsStr (execErrorMsg path argv e input o r) e ∧
    containsStr (execErrorMsg path argv e input o r) (input.getD "") ∧
    containsStr (execErrorMsg path argv e input o r) o ∧
    containsStr (execErrorMsg path argv e input o r) r := by
  refine ⟨⟨"failed to execute ", ?_, ?_⟩, ?_, ?_, ?_, ?_, ?_⟩
  · exact " " ++ String.intercalate " " argv ++ ": " ++ e ++ " stdin:'" ++
      input.getD "" ++ "' stdout:'" ++ o ++ "' stderr:'" ++ r ++ "'"
  · simp [execErrorMsg, String.append_assoc]
  · refine ⟨"failed to execute " ++ path ++ " ",
      ": " ++ e ++ " stdin:'" ++ input.getD "" ++ "' stdout:'" ++ o ++
        "' stderr:'" ++ r ++ "'", ?_⟩
    simp [execErrorMsg, String.append_assoc]
  · refine ⟨"failed to execute " ++ path ++ " " ++
      String.intercalate " " argv ++ ": ",
      " stdin:'" ++ input.getD "" ++ "' stdout:'" ++ o ++ "' stderr:'" ++
        r ++ "'", ?_⟩
    simp [execErrorMsg, String.append_assoc]
  · refine ⟨"failed to execute " ++ path ++ " " ++
      String.intercalate " " argv ++ ": " ++ e ++ " stdin:'",
      "' stdout:'" ++ o ++ "' stderr:'" ++ r ++ "'", ?_⟩
    simp [execErrorMsg, String.append_assoc]
  · refine ⟨"failed to execute " ++ path ++ " " ++
      String.intercalate " " argv ++ ": " ++ e ++ " stdin:'" ++
      input.getD "" ++ "' stdout:'",
      "' stderr:'" ++ r ++ "'", ?_⟩
    simp [execErrorMsg, String.append_assoc]
  · refine ⟨"failed to execute " ++ path ++ " " ++
      String.intercalate " " argv ++ ": " ++ e ++ " stdin:'" ++
      input.getD "" ++ "' stdout:'" ++ o ++ "' stderr:'", "'", ?_⟩
    simp [execErrorMsg, String.append_assoc]

/-- C3: when the built command's run reports a zero exit status the
executor returns exactly the captured stdout buffer; when it reports an
error the executor returns an error whose rendered message is the forensic
execFailMsg, which embeds the resolved executable path, the space-joined
full argument vector, the underlying process error, the sent input payload
(empty rendering when none was sent), and both captured stdout and stderr
verbatim — in particular any non-empty stderr text appears verbatim. -/
theorem exec_success_stdout_error_forensics (env : Env) (st : ToolPaths)
    (ns : String) (input : Option String) (args : List String) :
    ((runOutcome env st ns input args).runErr = none →
      (execCommand env st ns input args).1 =
        .ok (runOutcome env st ns input args).stdout) ∧
    (∀ e, (runOutcome env st ns input args).runErr = some e →
      (execCommand env st ns input args).1 =
          .error (execFailMsg env st ns input args e) ∧
        containsStr (execFailMsg env st ns input args e)
          (builtCmd env st ns args).path ∧
        containsStr (execFailMsg env st ns input args e)
          (String.intercalate " "
            ((builtCmd env st ns args).name ::
              (builtCmd env st ns args).args)) ∧
        containsStr (execFailMsg env st ns input args e) e ∧
        containsStr (execFailMsg env st ns input args e) (input.getD "") ∧
        containsStr (execFailMsg env st ns input args e)
          (runOutcome env st ns input args).stdout ∧
        containsStr (execFailMsg env st ns input args e)
          (runOutcome env st ns input args).stderr) := by
  constructor
  · intro h
    rw [execCommand_fst_eq, h]
  · intro e h
    rw [execCommand_fst_eq, h]
    exact ⟨rfl, execErrorMsg_contains _ _ _ _ _ _⟩

/-- Sample environment whose spawns fail with exit status 1 and stderr
"Error: syntax error", and whose decodes fail. -/
def envFail : Env :=
  { lookPath := fun n => .ok ("/usr/bin/" ++ n)
    spawn := fun _ =>
      ⟨some "exit status 1", "partial out", "Error: syntax error"⟩
    toJSON := fun o => match o with
      | some l => .ok (String.intercalate "," (l.map Nftable.raw))
      | none => .error "nil entity sequence"
    fromJSON := fun _ => .error "invalid character" }

/-- Witness for C3: a concrete successful run returning its stdout, and a
concrete failing run returning the forensic error. -/
theorem exec_success_stdout_error_forensics_witness :
    ((runOutcome envOk stR "/run/netns/ns0" none ["-j"]).runErr = none ∧
      (execCommand envOk stR "/run/netns/ns0" none ["-j"]).1 =
        .ok (runOutcome envOk stR "/run/netns/ns0" none ["-j"]).stdout) ∧
    ((runOutcome envFail stR "/run/netns/ns0" (some "payload")
        ["-j"]).runErr = some "exit status 1" ∧
      ((execCommand envFail stR "/run/netns/ns0" (some "payload")
            ["-j"]).1 =
          .error (execFailMsg envFail stR "/run/netns/ns0" (some "payload")
            ["-j"] "exit status 1") ∧
        containsStr (execFailMsg envFail stR "/run/netns/ns0"
            (some "payload") ["-j"] "exit status 1")
          (builtCmd envFail stR "/run/netns/ns0" ["-j"]).path ∧
        containsStr (execFailMsg envFail stR "/run/netns/ns0"
            (some "payload") ["-j"] "exit status 1")
          (String.intercalate " "
            ((builtCmd envFail stR "/run/netns/ns0" ["-j"]).name ::
              (builtCmd envFail stR "/run/netns/ns0" ["-j"]).args)) ∧
        containsStr (execFailMsg envFail stR "/run/netns/ns0"
            (some "payload") ["-j"] "exit status 1") "exit status 1" ∧
        containsStr (execFailMsg envFail stR "/run/netns/ns0"
            (some "payload") ["-j"] "exit status 1")
          ((some "payload").getD "") ∧
        containsStr (execFailMsg envFail stR "/run/netns/ns0"
            (some "payload") ["-j"] "exit status 1")
          (runOutcome envFail stR "/run/netns/ns0" (some "payload")
            ["-j"]).stdout ∧
        containsStr (execFailMsg envFail stR "/run/netns/ns0"
            (some "payload") ["-j"] "exit status 1")
          (runOutcome envFail stR "/run/netns/ns0" (some "payload")
            ["-j"]).stderr)) :=
  ⟨⟨by decide,
    (exec_success_stdout_error_forensics envOk stR "/run/netns/ns0" none
      ["-j"]).1 (by decide)⟩,
   ⟨by decide,
    (exec_success_stdout_error_forensics envFail stR "/run/netns/ns0"
      (some "payload") ["-j"]).2 "exit status 1" (by decide)⟩⟩

/-- C4: whenever New returns a document rather than an error, that document
is bound to the given namespace reference and its entity sequence is
initialized and empty — some [], never the unset nil slice none. -/
theorem new_document_bound_and_empty (env : Env) (st : ToolPaths)
    (ns : String) (c : Config) (h : (New env st ns).1 = .ok c) :
    c.NetNSPath = ns ∧ c.Nftables = some [] := by
  unfold New at h
  split at h
  · split at h
    · simp at h
    · injection h with h
      subst h
      exact ⟨rfl, rfl⟩
  · injection h with h
    subst h
    exact ⟨rfl, rfl⟩

/-- Witness for C4 at a concrete environment and namespace. -/
theorem new_document_bound_and_empty_witness :
    (New envOk stR "/run/netns/ns3").1 =
        .ok (⟨some [], "/run/netns/ns3"⟩ : Config) ∧
      ((⟨some [], "/run/netns/ns3"⟩ : Config).NetNSPath = "/run/netns/ns3" ∧
        (⟨some [], "/run/netns/ns3"⟩ : Config).Nftables = some []) :=
  ⟨by rfl,
   new_document_bound_and_empty envOk stR "/run/netns/ns3"
     ⟨some [], "/run/netns/ns3"⟩ (by rfl)⟩

/-- Helper: New never changes the stored ruleset-tool path. -/
theorem New_nft_path_unchanged (env : Env) (st : ToolPaths) (ns : String) :
    (New env st ns).2.1.NFTBinPath = st.NFTBinPath := by
  unfold New
  split
  · split <;> rfl
  · rfl

/-- Helper: ReadConfig never changes the stored ruleset-tool path. -/
theorem ReadConfig_nft_path_unchanged (env : Env) (st : ToolPaths)
    (ns : String) :
    (ReadConfig env st ns).2.1.NFTBinPath = st.NFTBinPath := by
  unfold ReadConfig
  dsimp only
  split
  · rfl
  · split
    · exact New_nft_path_unchanged env st ns
    · split
      · exact New_nft_path_unchanged env st ns
      · exact New_nft_path_unchanged env st ns

/-- C5: New attempts a fresh lookup of the namespace-entry tool exactly
when the process-wide resolved path is empty; if that lookup fails the call
returns the lookup error with the state unchanged and no process spawned,
and if it succeeds the process-wide path is updated to the resolved one.
The stored ruleset-tool path is never re-resolved: New and ReadConfig both
leave NFTBinPath exactly as it was (ApplyConfig never touches the path
state at all, as its type shows). -/
theorem new_lazy_lookup_semantics (env : Env) (st : ToolPaths)
    (ns : String) :
    (st.NSEnterBinPath = "" ↔
      Event.lookup "nsenter" ∈ (New env st ns).2.2) ∧
    (st.NSEnterBinPath = "" →
      (∀ e, env.lookPath "nsenter" = .error e →
        (New env st ns).1 = .error e ∧ (New env st ns).2.1 = st ∧
        ∀ inv, Event.spawned inv ∉ (New env st ns).2.2) ∧
      (∀ p, env.lookPath "nsenter" = .ok p →
        (New env st ns).2.1.NSEnterBinPath = p)) ∧
    (New env st ns).2.1.NFTBinPath = st.NFTBinPath ∧
    (ReadConfig env st ns).2.1.NFTBinPath = st.NFTBinPath := by
  refine ⟨?_, ?_, New_nft_path_unchanged env st ns,
    ReadConfig_nft_path_unchanged env st ns⟩
  · unfold New
    constructor
    · intro he
      rw [if_pos (by simp [String.isEmpty_iff, he])]
      split <;> simp
    · intro hmem
      by_contra hne
      rw [if_neg (by simp [String.isEmpty_iff, hne])] at hmem
      simp at hmem
  · intro he
    constructor
    · intro e hl
      have hcond : st.NSEnterBinPath.isEmpty = true := by
        simp [String.isEmpty_iff, he]
      unfold New
      rw [if_pos hcond, hl]
      exact ⟨rfl, rfl, by simp⟩
    · intro p hl
      have hcond : st.NSEnterBinPath.isEmpty = true := by
        simp [String.isEmpty_iff, he]
      unfold New
      rw [if_pos hcond, hl]

/-- Sample environment whose lookups all fail. -/
def envNoTool : Env :=
  { lookPath := fun n =>
      .error ("exec: " ++ n ++ ": executable file not found in $PATH")
    spawn := fun _ => ⟨none, "", ""⟩
    toJSON := fun _ => .ok ""
    fromJSON := fun _ => .ok [] }

/-- Empty tool-path state: startup resolution failed for both tools. -/
def stEmpty : ToolPaths := ⟨"", ""⟩

/-- Witness for C5: with an empty stored path and a failing lookup, New
returns the lookup error, spawns nothing and leaves the state unchanged. -/
theorem new_lazy_lookup_semantics_witness :
    ("" : String) = "" ∧
      envNoTool.lookPath "nsenter" =
        .error "exec: nsenter: executable file not found in $PATH" ∧
      ((New envNoTool stEmpty "/run/netns/ns4").1 =
          .error "exec: nsenter: executable file not found in $PATH" ∧
        (New envNoTool stEmpty "/run/netns/ns4").2.1 = stEmpty ∧
        ∀ inv, Event.spawned inv ∉
          (New envNoTool stEmpty "/run/netns/ns4").2.2) :=
  ⟨rfl, by rfl,
   ((new_lazy_lookup_semantics envNoTool stEmpty "/run/netns/ns4").2.1
      (by decide)).1
     "exec: nsenter: executable file not found in $PATH" (by rfl)⟩

/-- C6: when encoding the document fails, Apply returns exactly the encode
error, leaves the document untouched, and its trace is empty — no external
process is spawned, the executor is never invoked. -/
theorem apply_encode_failure_no_spawn (env : Env) (st : ToolPaths)
    (c : Config) (e : String) (h : env.toJSON c.Nftables = .error e) :
    ApplyConfig env st c = (.error e, c, []) := by
  unfold ApplyConfig
  rw [h]

/-- Witness for C6: a document with the unset entity sequence, which the
sample encoder rejects. -/
theorem apply_encode_failure_no_spawn_witness :
    envOk.toJSON (Config.mk none "/run/netns/ns5").Nftables =
        .error "nil entity sequence" ∧
      ApplyConfig envOk stR (Config.mk none "/run/netns/ns5") =
        (.error "nil entity sequence", Config.mk none "/run/netns/ns5",
          []) :=
  ⟨by rfl,
   apply_encode_failure_no_spawn envOk stR (Config.mk none "/run/netns/ns5")
     "nil entity sequence" (by rfl)⟩

/-- C7: when Read's executor invocation succeeds but decoding the captured
stdout fails, Read returns no document and an error that wraps the parse
error as "failed to list ruleset: <err>" — the message contains the phrase
"failed to list ruleset" and is a function of the parse error alone (the
raw stdout bytes do not occur in it: the same message results whatever the
captured bytes were). -/
theorem read_decode_failure_wraps (env : Env) (st : ToolPaths) (ns : String)
    (out : String) (c : Config) (e : String)
    (h1 : (execCommand env st ns none [cmdJSON, cmdList, cmdRuleset]).1 =
      .ok out)
    (h2 : (New env st ns).1 = .ok c)
    (h3 : env.fromJSON out = .error e) :
    (ReadConfig env st ns).1 = .error ("failed to list ruleset: " ++ e) ∧
    containsStr ("failed to list ruleset: " ++ e)
      "failed to list ruleset" := by
  constructor
  · unfold ReadConfig
    simp only [h1, h2, h3]
  · exact ⟨"", ": " ++ e, by rfl⟩

/-- Sample environment whose spawns succeed with an output the decoder
rejects. -/
def envBadJSON : Env :=
  { lookPath := fun n => .ok ("/usr/bin/" ++ n)
    spawn := fun _ => ⟨none, "bogus", ""⟩
    toJSON := fun o => match o with
      | some l => .ok (String.intercalate "," (l.map Nftable.raw))
      | none => .error "nil entity sequence"
    fromJSON := fun _ => .error "invalid character" }

/-- Witness for C7: a concrete successful run whose output fails to
decode. -/
theorem read_decode_failure_wraps_witness :
    (execCommand envBadJSON stR "/run/netns/ns6" none
        [cmdJSON, cmdList, cmdRuleset]).1 = .ok "bogus" ∧
    (New envBadJSON stR "/run/netns/ns6").1 =
      .ok (⟨some [], "/run/netns/ns6"⟩ : Config) ∧
    envBadJSON.fromJSON "bogus" = .error "invalid character" ∧
    ((ReadConfig envBadJSON stR "/run/netns/ns6").1 =
        .error ("failed to list ruleset: " ++ "invalid character") ∧
      containsStr ("failed to list ruleset: " ++ "invalid character")
        "failed to list ruleset") :=
  ⟨by rfl, by rfl, by rfl,
   read_decode_failure_wraps envBadJSON stR "/run/netns/ns6" "bogus"
     ⟨some [], "/run/netns/ns6"⟩ "invalid character" (by rfl) (by rfl)
     (by rfl)⟩

/-- C8: Apply returns its input document with every field unchanged whether
it succeeds or fails (the source assigns to no field of the document); and
Read never writes into any pre-existing document — whenever Read returns a
document it is a freshly constructed one, bound to the given reference,
whose entity sequence is exactly the decoded executor output, so a Read
failing at any stage (including the decode stage) returns an error and
every previously obtained document value is left untouched. -/
theorem apply_read_frame (env : Env) (st : ToolPaths) (ns : String)
    (c : Config) :
    (ApplyConfig env st c).2.1 = c ∧
    (∀ cfg, (ReadConfig env st ns).1 = .ok cfg →
      ∃ out nfts,
        (execCommand env st ns none [cmdJSON, cmdList, cmdRuleset]).1 =
          .ok out ∧
        env.fromJSON out = .ok nfts ∧
        cfg = ⟨some nfts, ns⟩) := by
  constructor
  · unfold ApplyConfig
    cases env.toJSON c.Nftables with
    | error e => rfl
    | ok data =>
      dsimp only
      split <;> rfl
  · intro cfg h
    unfold ReadConfig at h
    dsimp only at h
    cases hex : (execCommand env st ns none
        [cmdJSON, cmdList, cmdRuleset]).1 with
    | error e => rw [hex] at h; simp at h
    | ok out =>
      rw [hex] at h
      dsimp only at h
      cases hnew : (New env st ns).1 with
      | error e => rw [hnew] at h; simp at h
      | ok config =>
        rw [hnew] at h
        dsimp only at h
        cases hdec : env.fromJSON out with
        | error e => rw [hdec] at h; simp at h
        | ok nfts =>
          rw [hdec] at h
          dsimp only at h
          injection h with h
          subst h
          refine ⟨out, nfts, rfl, hdec, ?_⟩
          rcases new_document_bound_and_empty env st ns config hnew with
            ⟨hns, _⟩
          cases config with
          | mk nf pth =>
            simp only at hns
            rw [hns]

/-- Witness for C8: the Read part at a concrete environment where Read
succeeds (the Apply part of the theorem has no hypothesis). -/
theorem apply_read_frame_witness :
    (ReadConfig envOk stR "/run/netns/ns6").1 =
        .ok (⟨some [Nftable.mk "tbl"], "/run/netns/ns6"⟩ : Config) ∧
      (∃ out nfts,
        (execCommand envOk stR "/run/netns/ns6" none
            [cmdJSON, cmdList, cmdRuleset]).1 = .ok out ∧
        envOk.fromJSON out = .ok nfts ∧
        (⟨some [Nftable.mk "tbl"], "/run/netns/ns6"⟩ : Config) =
          ⟨some nfts, "/run/netns/ns6"⟩) :=
  ⟨by rfl,
   (apply_read_frame envOk stR "/run/netns/ns6" cfgR).2
     ⟨some [Nftable.mk "tbl"], "/run/netns/ns6"⟩ (by rfl)⟩

/-- C9: the namespace reference is excluded from the document's serialized
form: the encoder consumes the entity sequence only, so two documents equal
except in their bound namespace reference encode identically and the stdin
payload attached to the processes Apply spawns for them is identical. -/
theorem serialization_excludes_namespace (env : Env) (st : ToolPaths)
    (c1 c2 : Config) (inv1 inv2 : Invocation)
    (h : c1.Nftables = c2.Nftables)
    (h1 : Event.spawned inv1 ∈ (ApplyConfig env st c1).2.2)
    (h2 : Event.spawned inv2 ∈ (ApplyConfig env st c2).2.2) :
    env.toJSON c1.Nftables = env.toJSON c2.Nftables ∧
    inv1.stdin = inv2.stdin := by
  rcases ApplyConfig_spawn_sub env st c1 inv1 h1 with ⟨d1, hd1, hm1⟩
  rcases ApplyConfig_spawn_sub env st c2 inv2 h2 with ⟨d2, hd2, hm2⟩
  have e1 := (execCommand_spawn_mem env st c1.NetNSPath (some d1) _ inv1
    hm1).2
  have e2 := (execCommand_spawn_mem env st c2.NetNSPath (some d2) _ inv2
    hm2).2
  refine ⟨by rw [h], ?_⟩
  rw [e1, e2]
  rw [h] at hd1
  rw [hd1] at hd2
  injection hd2 with hd
  rw [hd]

/-- Second sample document: same entities as cfgR, different namespace. -/
def cfgR2 : Config := ⟨some [⟨"t1"⟩], "/run/netns/ns7"⟩

/-- Sample invocation: the one envOk-based Apply of cfgR2 spawns. -/
def invApply2 : Invocation :=
  ⟨"/usr/bin/nsenter",
   ["/usr/bin/nsenter", "--net=/run/netns/ns7", "--", "/usr/sbin/nft",
    "-j", "-f", "-"], some "t1"⟩

/-- Witness for C9: two concrete documents differing only in namespace. -/
theorem serialization_excludes_namespace_witness :
    cfgR.Nftables = cfgR2.Nftables ∧
    Event.spawned invApply ∈ (ApplyConfig envOk stR cfgR).2.2 ∧
    Event.spawned invApply2 ∈ (ApplyConfig envOk stR cfgR2).2.2 ∧
    (envOk.toJSON cfgR.Nftables = envOk.toJSON cfgR2.Nftables ∧
      invApply.stdin = invApply2.stdin) :=
  ⟨by decide, by decide, by decide,
   serialization_excludes_namespace envOk stR cfgR cfgR2 invApply invApply2
     (by decide) (by decide) (by decide)⟩

/-- Helper: every execCommand failure message has the ExecutionError
shape, whatever its components are. -/
theorem execErrorMsg_isExec (path : String) (argv : List String)
    (e : String) (input : Option String) (o r : String) :
    isExecutionError (execErrorMsg path argv e input o r) := by
  refine ⟨path ++ " " ++ String.intercalate " " argv ++ ": " ++ e ++
    " stdin:'" ++ input.getD "" ++ "' stdout:'" ++ o ++ "' stderr:'" ++
    r ++ "'", ?_⟩
  simp [execErrorMsg, String.append_assoc]

/-- C10: Read runs the executor before ever constructing a document via
New; with an empty process-wide namespace-entry path it therefore performs
no lazy re-resolution — no lookup happens, the state is returned unchanged,
the trace is empty — and fails with the executor's ExecutionError from the
spawn attempt (whatever env.lookPath would say), never with a lookup
(ToolNotFound) error. -/
theorem read_empty_path_execution_error (env : Env) (st : ToolPaths)
    (ns : String) (h : st.NSEnterBinPath = "") :
    ReadConfig env st ns =
      (.error (execErrorMsg "" ("" :: ("--net=" ++ ns) :: "--" ::
          st.NFTBinPath :: ["-j", "list", "ruleset"])
          "fork/exec : no such file or directory" none "" ""), st, []) ∧
    isExecutionError (execErrorMsg "" ("" :: ("--net=" ++ ns) :: "--" ::
      st.NFTBinPath :: ["-j", "list", "ruleset"])
      "fork/exec : no such file or directory" none "" "") := by
  obtain ⟨nse, nft⟩ := st
  simp only at h
  subst h
  constructor
  · rfl
  · exact execErrorMsg_isExec "" ("" :: ("--net=" ++ ns) :: "--" ::
      nft :: ["-j", "list", "ruleset"])
      "fork/exec : no such file or directory" none "" ""

/-- Witness for C10: the empty-path state, on which Read fails with the
forensic spawn error, touching neither the state nor the lookup oracle. -/
theorem read_empty_path_execution_error_witness :
    stEmpty.NSEnterBinPath = "" ∧
    (ReadConfig envOk stEmpty "/run/netns/ns8" =
        (.error (execErrorMsg "" ("" :: ("--net=" ++ "/run/netns/ns8") ::
            "--" :: stEmpty.NFTBinPath :: ["-j", "list", "ruleset"])
            "fork/exec : no such file or directory" none "" ""), stEmpty,
          []) ∧
      isExecutionError (execErrorMsg ""
        ("" :: ("--net=" ++ "/run/netns/ns8") :: "--" ::
          stEmpty.NFTBinPath :: ["-j", "list", "ruleset"])
        "fork/exec : no such file or directory" none "" "")) :=
  ⟨rfl,
   read_empty_path_execution_error envOk stEmpty "/run/netns/ns8" rfl⟩
